import Mathlib

set_option maxHeartbeats 1000000

/-!
Shallow embedding of the mbed-Keypad library.

The debounce state machine, the timer arming and the event dispatch of
src/keypad.cpp are embedded as pure functions on an explicit state
record; the lifecycle functions and the KeypadBlocking ring buffers are
embedded likewise.  Hardware inputs (edge interrupts, timer expirations,
column line readings) are modelled as an action type fed to a step
function, so that a whole run of the device is a fold over a list of
actions.
-/

/-- Machine states of the debounce state machine (enum ButtonState used by
src/keypad.cpp). -/
inductive ButtonState where
  | RELEASED
  | PRESS_BOUNCING
  | PRESSED
  | LONG_PRESSED
  | RELEASE_BOUNCING
  deriving DecidableEq, Repr

/-- Number of rows on the keypad (constant KEYPAD_NUM_ROWS in keypad.h). -/
def KEYPAD_NUM_ROWS : Nat := 4

/-- Number of columns on the keypad (constant KEYPAD_NUM_COLS in keypad.h). -/
def KEYPAD_NUM_COLS : Nat := 4

/-- Maximum number of presses/releases/long-presses queued before overwriting
(constant KEYPAD_BUFFER_LEN in keypad.h). -/
def KEYPAD_BUFFER_LEN : Nat := 16

/-- Kind of a classified gesture event: which of the three callbacks
(onPress, onRelease, onLongpress) the event is dispatched to. -/
inductive EventKind where
  | Pressed
  | Released
  | LongPressed
  deriving DecidableEq, Repr

/-- One classified gesture event: its kind and the (row, column) arguments
passed to the corresponding callback via the dispatch queue. -/
structure KEvent where
  kind : EventKind
  row : Nat
  col : Nat
  deriving DecidableEq, Repr

/-- State of one Keypad object: the member variables of class Keypad that the
handlers in src/keypad.cpp read and write.  The three mbed Timeout objects
(toRowScan, toButtonScan, toLongPressed) are modelled by their armed status;
toRowScan additionally records which column template argument the attached
row_scan_handler was instantiated with.  The mbed EventQueue is modelled as
the list of events posted to it, oldest first.  threadHandle is modelled by
whether it is non-null. -/
structure KeypadState where
  state : ButtonState
  pressedRow : Nat
  pressedCol : Nat
  rowScanArmed : Option Nat
  buttonScanArmed : Bool
  longPressArmed : Bool
  pressCbEnabled : Bool
  releaseCbEnabled : Bool
  longpressCbEnabled : Bool
  queue : List KEvent
  threadHandle : Option Unit
  deriving DecidableEq, Repr

/-- Keypad::fall_handler of src/keypad.cpp, template argument curCol made a
runtime parameter.  Returns the updated state and the list of events
classified by this call (always none here). -/
def fall_handler (curCol : Nat) (k : KeypadState) : KeypadState × List KEvent :=
  if k.state ≠ ButtonState.RELEASED then
    (k, [])
  else
    ({ k with state := ButtonState.PRESS_BOUNCING, rowScanArmed := some curCol }, [])

/-- Keypad::rise_handler of src/keypad.cpp, template argument curCol made a
runtime parameter.  Note that, as in the source, curCol is not inspected by
the body. -/
def rise_handler (curCol : Nat) (k : KeypadState) : KeypadState × List KEvent :=
  if k.state ≠ ButtonState.PRESSED ∧ k.state ≠ ButtonState.LONG_PRESSED then
    (k, [])
  else
    ({ k with state := ButtonState.RELEASE_BOUNCING, buttonScanArmed := true }, [])

/-- Result of the row sweep loop in Keypad::row_scan_handler: the index of the
first row i in 0 .. KEYPAD_NUM_ROWS - 1 for which driving row i high makes the
triggering column read active.  The environment is a list of booleans giving,
for each row index, the value col[curCol].read() returns while that row is
driven. -/
def scanRows (reads : List Bool) : Option Nat :=
  (List.range KEYPAD_NUM_ROWS).find? (fun i => reads.getD i false)

/-- Keypad::row_scan_handler of src/keypad.cpp, template argument curCol made
a runtime parameter and the per-row column readings supplied as an
environment list. -/
def row_scan_handler (curCol : Nat) (reads : List Bool) (k : KeypadState) :
    KeypadState × List KEvent :=
  if k.state ≠ ButtonState.PRESS_BOUNCING then
    (k, [])
  else
    match scanRows reads with
    | some i =>
        ({ k with
            state := ButtonState.PRESSED
            pressedRow := i
            pressedCol := curCol
            longPressArmed := true
            queue := k.queue ++
              (if k.pressCbEnabled then [⟨EventKind.Pressed, i, curCol⟩] else []) },
          [⟨EventKind.Pressed, i, curCol⟩])
    | none =>
        ({ k with state := ButtonState.RELEASED }, [])

/-- Keypad::button_scan_handler of src/keypad.cpp.  colReading is the value
col[pressedCol].read() returns: false while the tracked button is still held
(line pulled low through the driven-low row), true once it is released (line
pulled high by the pull-up). -/
def button_scan_handler (colReading : Bool) (k : KeypadState) :
    KeypadState × List KEvent :=
  if k.state ≠ ButtonState.RELEASE_BOUNCING then
    (k, [])
  else
    if !colReading then
      ({ k with state := ButtonState.PRESSED }, [])
    else
      ({ k with
          state := ButtonState.RELEASED
          longPressArmed := if k.longPressArmed then false else k.longPressArmed
          queue := k.queue ++
            (if k.releaseCbEnabled then
              [⟨EventKind.Released, k.pressedRow, k.pressedCol⟩] else []) },
        [⟨EventKind.Released, k.pressedRow, k.pressedCol⟩])

/-- Keypad::long_press_handler of src/keypad.cpp. -/
def long_press_handler (k : KeypadState) : KeypadState × List KEvent :=
  if k.state ≠ ButtonState.PRESSED then
    (k, [])
  else
    ({ k with
        state := ButtonState.LONG_PRESSED
        queue := k.queue ++
          (if k.longpressCbEnabled then
            [⟨EventKind.LongPressed, k.pressedRow, k.pressedCol⟩] else []) },
      [⟨EventKind.LongPressed, k.pressedRow, k.pressedCol⟩])

/-- One stimulus delivered to the keypad: a falling or rising edge interrupt
on a column line, or the expiration of one of the three one-shot timers,
carrying the line readings the fired handler observes. -/
inductive KAction where
  | fall (c : Nat)
  | rise (c : Nat)
  | rowScanFire (reads : List Bool)
  | buttonScanFire (colReading : Bool)
  | longPressFire
  deriving DecidableEq, Repr

/-- Apply one stimulus.  Edges invoke the registered handlers directly; a
timer expiration invokes its handler only if that timer is currently armed,
and consumes the arming (the mbed Timeout is one-shot). -/
def stepK (k : KeypadState) (a : KAction) : KeypadState × List KEvent :=
  match a with
  | KAction.fall c => fall_handler c k
  | KAction.rise c => rise_handler c k
  | KAction.rowScanFire reads =>
      match k.rowScanArmed with
      | some c => row_scan_handler c reads { k with rowScanArmed := none }
      | none => (k, [])
  | KAction.buttonScanFire colReading =>
      if k.buttonScanArmed then
        button_scan_handler colReading { k with buttonScanArmed := false }
      else
        (k, [])
  | KAction.longPressFire =>
      if k.longPressArmed then
        long_press_handler { k with longPressArmed := false }
      else
        (k, [])

/-- Run a list of stimuli from a state, collecting the classified events in
order. -/
def runK : KeypadState → List KAction → KeypadState × List KEvent
  | k, [] => (k, [])
  | k, a :: as =>
      ((runK (stepK k a).1 as).1, (stepK k a).2 ++ (runK (stepK k a).1 as).2)

/-- State of a freshly constructed Keypad object, with the three callback
enabled flags as given (the Keypad constructor registers no callbacks; the
KeypadBlocking constructor registers all three). -/
def initK (p r l : Bool) : KeypadState :=
  { state := ButtonState.RELEASED
    pressedRow := 0
    pressedCol := 0
    rowScanArmed := none
    buttonScanArmed := false
    longPressArmed := false
    pressCbEnabled := p
    releaseCbEnabled := r
    longpressCbEnabled := l
    queue := []
    threadHandle := none }

/-- Keypad::is_initialized of src/keypad.cpp. -/
def is_initialized (k : KeypadState) : Bool := k.threadHandle.isSome

/-- Keypad::initialize of src/keypad.cpp.  allocOk models whether the nothrow
allocation of the Thread succeeds, startOk whether starting it returns osOK.
Returns the updated state and the boolean result. -/
def initialize_fn (allocOk startOk : Bool) (k : KeypadState) :
    KeypadState × Bool :=
  if is_initialized k then
    (k, false)
  else
    if !allocOk then
      (k, false)
    else
      if !startOk then
        ({ { k with threadHandle := some () } with threadHandle := none }, false)
      else
        ({ k with threadHandle := some () }, true)

/-- Keypad::finalize of src/keypad.cpp.  Breaking the dispatch, joining and
deleting the thread leaves every member except threadHandle unchanged. -/
def finalize_fn (k : KeypadState) : KeypadState × Bool :=
  if !is_initialized k then
    (k, false)
  else
    ({ k with threadHandle := none }, true)

/-- Keypad::register_onpress of src/keypad.cpp (the stored callback value is
not part of the model; only its enabled flag is observable). -/
def register_onpress (k : KeypadState) : KeypadState :=
  { k with pressCbEnabled := true }

/-- Keypad::remove_onpress of src/keypad.cpp. -/
def remove_onpress (k : KeypadState) : KeypadState :=
  { k with pressCbEnabled := false }

/-- Keypad::register_onrelease of src/keypad.cpp. -/
def register_onrelease (k : KeypadState) : KeypadState :=
  { k with releaseCbEnabled := true }

/-- Keypad::remove_onrelease of src/keypad.cpp. -/
def remove_onrelease (k : KeypadState) : KeypadState :=
  { k with releaseCbEnabled := false }

/-- Keypad::register_onlongpress of src/keypad.cpp. -/
def register_onlongpress (k : KeypadState) : KeypadState :=
  { k with longpressCbEnabled := true }

/-- Keypad::remove_onlongpress of src/keypad.cpp. -/
def remove_onlongpress (k : KeypadState) : KeypadState :=
  { k with longpressCbEnabled := false }

/-- Enabled flag consulted at classification time for each event kind
(pressCbEnabled, releaseCbEnabled, longpressCbEnabled in src/keypad.cpp). -/
def cbEnabled (k : KeypadState) : EventKind → Bool
  | EventKind.Pressed => k.pressCbEnabled
  | EventKind.Released => k.releaseCbEnabled
  | EventKind.LongPressed => k.longpressCbEnabled

/-- Everything of a KeypadState except the dispatch queue and the callback
enabled flags: the gesture-tracking core the handlers operate on. -/
def coreK (k : KeypadState) :
    ButtonState × Nat × Nat × Option Nat × Bool × Bool × Option Unit :=
  (k.state, k.pressedRow, k.pressedCol, k.rowScanArmed, k.buttonScanArmed,
    k.longPressArmed, k.threadHandle)

/-- Replace the three callback enabled flags. -/
def setFlags (k : KeypadState) (p r l : Bool) : KeypadState :=
  { k with pressCbEnabled := p, releaseCbEnabled := r, longpressCbEnabled := l }

/-- Does the state lie strictly inside a gesture, between the classification
of a Pressed event and that of the matching Released event. -/
def pressOpen : ButtonState → Bool
  | ButtonState.PRESSED => true
  | ButtonState.LONG_PRESSED => true
  | ButtonState.RELEASE_BOUNCING => true
  | _ => false

/-- Checker for the alternation property: scanning the event stream left to
right with an accumulator telling whether a Pressed event has been seen with
no Released event after it, no Pressed event may occur while the accumulator
is already set. -/
def noDoublePressed : List KEvent → Bool → Bool
  | [], _ => true
  | e :: es, sincePress =>
      match e.kind with
      | EventKind.Pressed => !sincePress && noDoublePressed es true
      | EventKind.Released => noDoublePressed es false
      | EventKind.LongPressed => noDoublePressed es sincePress

/-- Checker for the long-press placement property: every LongPressed event
occurs while a Pressed event is open, i.e. after a Pressed event and before
the Released event that closes it. -/
def longAfterPress : List KEvent → Bool → Bool
  | [], _ => true
  | e :: es, sincePress =>
      match e.kind with
      | EventKind.Pressed => longAfterPress es true
      | EventKind.Released => longAfterPress es false
      | EventKind.LongPressed => sincePress && longAfterPress es sincePress

/-- Is the action a raw edge interrupt (as opposed to a timer expiration). -/
def isEdge : KAction → Bool
  | KAction.fall _ => true
  | KAction.rise _ => true
  | _ => false

/-- Coordinates of a button, KeypadBlocking::button_coord of
src/keypadBlocking.h. -/
structure button_coord where
  r : Nat
  c : Nat
  deriving DecidableEq, Repr

/-- Modelled from the spec: push of the mbed CircularBuffer class used by
KeypadBlocking (the class itself is external to this repository).  The buffer
is a fixed-capacity FIFO ring, oldest element first; pushing onto a full
buffer silently discards the oldest element to make room. -/
def cbuf_push (cap : Nat) (buf : List button_coord) (x : button_coord) :
    List button_coord :=
  if buf.length < cap then buf ++ [x] else buf.drop 1 ++ [x]

/-- Modelled from the spec: pop of the mbed CircularBuffer class, removing
and returning the oldest element if one exists. -/
def cbuf_pop (buf : List button_coord) : Option button_coord × List button_coord :=
  match buf with
  | [] => (none, [])
  | x :: rest => (some x, rest)

/-- Modelled from the spec: peek of the mbed CircularBuffer class, returning
the oldest element without removing it. -/
def cbuf_peek (buf : List button_coord) : Option button_coord :=
  match buf with
  | [] => none
  | x :: _ => some x

/-- State of one KeypadBlocking object: its three event buffers
(src/keypadBlocking.h). -/
structure KeypadBlockingState where
  pressBuf : List button_coord
  releaseBuf : List button_coord
  longpressBuf : List button_coord
  deriving DecidableEq, Repr

/-- KeypadBlocking with all three buffers empty, as after construction. -/
def emptyBlocking : KeypadBlockingState :=
  { pressBuf := [], releaseBuf := [], longpressBuf := [] }

/-- KeypadBlocking::push_press of src/keypadBlocking.cpp. -/
def push_press (b : KeypadBlockingState) (r c : Nat) : KeypadBlockingState :=
  { b with pressBuf := cbuf_push KEYPAD_BUFFER_LEN b.pressBuf ⟨r, c⟩ }

/-- KeypadBlocking::peek_press of src/keypadBlocking.cpp, returning the
coordinates instead of writing through pointers. -/
def peek_press (b : KeypadBlockingState) : Option button_coord :=
  cbuf_peek b.pressBuf

/-- KeypadBlocking::pop_press of src/keypadBlocking.cpp: discards the oldest
unconsumed press, reporting by boolean whether one was available. -/
def pop_press (b : KeypadBlockingState) : KeypadBlockingState × Bool :=
  match cbuf_pop b.pressBuf with
  | (none, _) => (b, false)
  | (some _, rest) => ({ b with pressBuf := rest }, true)

/-- KeypadBlocking::press_available of src/keypadBlocking.cpp. -/
def press_available (b : KeypadBlockingState) : Nat :=
  b.pressBuf.length

/-- Push a list of press coordinates in order through
KeypadBlocking::push_press. -/
def pushAllPress (b : KeypadBlockingState) (xs : List button_coord) :
    KeypadBlockingState :=
  xs.foldl (fun b x => push_press b x.r x.c) b

/-- Drain up to n presses from the buffer in pop order, reading each with
peek_press before discarding it with pop_press. -/
def drainPress : KeypadBlockingState → Nat → List button_coord
  | _, 0 => []
  | b, Nat.succ n =>
      match peek_press b with
      | none => []
      | some x => x :: drainPress (pop_press b).1 n

/-- Keypad state with a press latched at row 1, column 2 and the long-press
timer still armed: the machine right after a confirmed press. -/
def sampleHeld : KeypadState :=
  { state := ButtonState.PRESSED
    pressedRow := 1
    pressedCol := 2
    rowScanArmed := none
    buttonScanArmed := false
    longPressArmed := true
    pressCbEnabled := true
    releaseCbEnabled := true
    longpressCbEnabled := true
    queue := []
    threadHandle := none }

/-- Keypad state debouncing a press on column 2: the machine right after the
first falling edge. -/
def sampleBouncing : KeypadState :=
  { state := ButtonState.PRESS_BOUNCING
    pressedRow := 0
    pressedCol := 0
    rowScanArmed := some 2
    buttonScanArmed := false
    longPressArmed := false
    pressCbEnabled := true
    releaseCbEnabled := true
    longpressCbEnabled := true
    queue := []
    threadHandle := none }

/-- Keypad state debouncing a release of the press latched at row 1,
column 2. -/
def sampleReleaseBouncing : KeypadState :=
  { state := ButtonState.RELEASE_BOUNCING
    pressedRow := 1
    pressedCol := 2
    rowScanArmed := none
    buttonScanArmed := true
    longPressArmed := true
    pressCbEnabled := true
    releaseCbEnabled := true
    longpressCbEnabled := true
    queue := []
    threadHandle := none }

/-- State reached from the initial state by the first falling edge on column
c: debouncing the press with the row-confirm timer armed for that column. -/
def bouncingFrom (p r l : Bool) (c : Nat) : KeypadState :=
  { initK p r l with state := ButtonState.PRESS_BOUNCING, rowScanArmed := some c }

/-- Every step classifies at most one event; an event always carries the
pending position of the post-state; a Pressed event is classified exactly
when the gesture opens, a Released event closes it, a LongPressed event
occurs strictly inside it. -/
theorem stepK_events (k : KeypadState) (a : KAction) :
    ((stepK k a).2 = [] ∧ pressOpen (stepK k a).1.state = pressOpen k.state)
    ∨ (∃ e, (stepK k a).2 = [e]
        ∧ e.row = (stepK k a).1.pressedRow
        ∧ e.col = (stepK k a).1.pressedCol
        ∧ ((e.kind = EventKind.Pressed
              ∧ pressOpen k.state = false
              ∧ pressOpen (stepK k a).1.state = true)
          ∨ (e.kind = EventKind.Released
              ∧ pressOpen k.state = true
              ∧ pressOpen (stepK k a).1.state = false)
          ∨ (e.kind = EventKind.LongPressed
              ∧ pressOpen k.state = true
              ∧ pressOpen (stepK k a).1.state = true))) := by
  obtain ⟨st, pr, pc, rsa, bsa, lpa, pcb, rcb, lcb, q, th⟩ := k
  cases a with
  | fall c =>
      cases st <;> simp [stepK, fall_handler, pressOpen]
  | rise c =>
      cases st <;> simp [stepK, rise_handler, pressOpen]
  | rowScanFire reads =>
      cases rsa with
      | none => simp [stepK, pressOpen]
      | some c =>
          cases st
          case PRESS_BOUNCING =>
            cases hs : scanRows reads with
            | none => left; simp [stepK, row_scan_handler, hs, pressOpen]
            | some i =>
                right
                exact ⟨⟨EventKind.Pressed, i, c⟩,
                  by simp [stepK, row_scan_handler, hs, pressOpen]⟩
          all_goals (left; simp [stepK, row_scan_handler, pressOpen])
  | buttonScanFire colReading =>
      cases bsa with
      | false => simp [stepK, pressOpen]
      | true =>
          cases st
          case RELEASE_BOUNCING =>
            cases colReading with
            | false => left; simp [stepK, button_scan_handler, pressOpen]
            | true =>
                right
                exact ⟨⟨EventKind.Released, pr, pc⟩,
                  by simp [stepK, button_scan_handler, pressOpen]⟩
          all_goals (left; simp [stepK, button_scan_handler, pressOpen])
  | longPressFire =>
      cases lpa with
      | false => simp [stepK, pressOpen]
      | true =>
          cases st
          case PRESSED =>
            right
            exact ⟨⟨EventKind.LongPressed, pr, pc⟩,
              by simp [stepK, long_press_handler, pressOpen]⟩
          all_goals (left; simp [stepK, long_press_handler, pressOpen])

/-- Along any run, the noDoublePressed checker accepts the classified stream
when started with the accumulator matching the current state. -/
theorem runK_noDoublePressed (as : List KAction) :
    ∀ k : KeypadState, noDoublePressed (runK k as).2 (pressOpen k.state) = true := by
  induction as with
  | nil => intro k; simp [runK, noDoublePressed]
  | cons a as ih =>
      intro k
      rcases stepK_events k a with ⟨h2, hpo⟩ | ⟨e, h2, _, _, hk⟩
      · simp only [runK, h2, List.nil_append]
        rw [← hpo]
        exact ih (stepK k a).1
      · obtain ⟨ek, er, ec⟩ := e
        rcases hk with ⟨hke, h1, h3⟩ | ⟨hke, h1, h3⟩ | ⟨hke, h1, h3⟩ <;>
          simp only at hke <;> subst hke <;>
          simp only [runK, h2, List.cons_append, List.nil_append,
            noDoublePressed, h1, Bool.not_false, Bool.true_and] <;>
          (have hih := ih (stepK k a).1; rw [h3] at hih; exact hih)

/-- Along any run, the longAfterPress checker accepts the classified stream
when started with the accumulator matching the current state. -/
theorem runK_longAfterPress (as : List KAction) :
    ∀ k : KeypadState, longAfterPress (runK k as).2 (pressOpen k.state) = true := by
  induction as with
  | nil => intro k; simp [runK, longAfterPress]
  | cons a as ih =>
      intro k
      rcases stepK_events k a with ⟨h2, hpo⟩ | ⟨e, h2, _, _, hk⟩
      · simp only [runK, h2, List.nil_append]
        rw [← hpo]
        exact ih (stepK k a).1
      · obtain ⟨ek, er, ec⟩ := e
        rcases hk with ⟨hke, h1, h3⟩ | ⟨hke, h1, h3⟩ | ⟨hke, h1, h3⟩ <;>
          simp only at hke <;> subst hke <;>
          simp only [runK, h2, List.cons_append, List.nil_append,
            longAfterPress, h1, Bool.true_and] <;>
          (have hih := ih (stepK k a).1; rw [h3] at hih; exact hih)

/-- The pending position fields are written by a step only when the row sweep
confirms a press, i.e. on the transition from PRESS_BOUNCING to PRESSED. -/
theorem pending_change (k : KeypadState) (a : KAction) :
    ((stepK k a).1.pressedRow = k.pressedRow
      ∧ (stepK k a).1.pressedCol = k.pressedCol)
    ∨ (k.state = ButtonState.PRESS_BOUNCING
        ∧ (stepK k a).1.state = ButtonState.PRESSED) := by
  obtain ⟨st, pr, pc, rsa, bsa, lpa, pcb, rcb, lcb, q, th⟩ := k
  cases a with
  | fall c => cases st <;> simp [stepK, fall_handler]
  | rise c => cases st <;> simp [stepK, rise_handler]
  | rowScanFire reads =>
      cases rsa with
      | none => simp [stepK]
      | some c =>
          cases st
          case PRESS_BOUNCING =>
            cases hs : scanRows reads with
            | none => left; simp [stepK, row_scan_handler, hs]
            | some i => right; simp [stepK, row_scan_handler, hs]
          all_goals (left; simp [stepK, row_scan_handler])
  | buttonScanFire colReading =>
      cases bsa with
      | false => simp [stepK]
      | true =>
          cases st <;> (left; cases colReading <;> simp [stepK, button_scan_handler])
  | longPressFire =>
      cases lpa with
      | false => simp [stepK]
      | true => cases st <;> (left; simp [stepK, long_press_handler])

/-- Each step appends to the dispatch queue exactly the events it classified,
filtered by the callback enabled flag of their kind as it was at
classification time. -/
theorem queue_append (k : KeypadState) (a : KAction) :
    (stepK k a).1.queue
      = k.queue ++ (stepK k a).2.filter (fun e => cbEnabled k e.kind) := by
  obtain ⟨st, pr, pc, rsa, bsa, lpa, pcb, rcb, lcb, q, th⟩ := k
  cases a with
  | fall c => cases st <;> simp [stepK, fall_handler]
  | rise c => cases st <;> simp [stepK, rise_handler]
  | rowScanFire reads =>
      cases rsa with
      | none => simp [stepK]
      | some c =>
          cases st
          case PRESS_BOUNCING =>
            cases hs : scanRows reads with
            | none => simp [stepK, row_scan_handler, hs]
            | some i =>
                cases pcb <;>
                  simp [stepK, row_scan_handler, hs, List.filter, cbEnabled]
          all_goals simp [stepK, row_scan_handler]
  | buttonScanFire colReading =>
      cases bsa with
      | false => simp [stepK]
      | true =>
          cases st
          case RELEASE_BOUNCING =>
            cases colReading with
            | false => simp [stepK, button_scan_handler]
            | true =>
                cases rcb <;>
                  simp [stepK, button_scan_handler, List.filter, cbEnabled]
          all_goals (cases colReading <;> simp [stepK, button_scan_handler])
  | longPressFire =>
      cases lpa with
      | false => simp [stepK]
      | true =>
          cases st
          case PRESSED =>
            cases lcb <;>
              simp [stepK, long_press_handler, List.filter, cbEnabled]
          all_goals simp [stepK, long_press_handler]

/-- The gesture-tracking core of the post-state and the classified events are
independent of the callback enabled flags: registering or removing listeners
never changes which transitions happen, only what reaches the queue. -/
theorem flags_independent (k : KeypadState) (a : KAction) (p r l : Bool) :
    coreK (stepK (setFlags k p r l) a).1 = coreK (stepK k a).1
    ∧ (stepK (setFlags k p r l) a).2 = (stepK k a).2 := by
  obtain ⟨st, pr, pc, rsa, bsa, lpa, pcb, rcb, lcb, q, th⟩ := k
  cases a with
  | fall c => cases st <;> simp [stepK, fall_handler, setFlags, coreK]
  | rise c => cases st <;> simp [stepK, rise_handler, setFlags, coreK]
  | rowScanFire reads =>
      cases rsa with
      | none => simp [stepK, setFlags, coreK]
      | some c =>
          cases st
          case PRESS_BOUNCING =>
            cases hs : scanRows reads <;>
              simp [stepK, row_scan_handler, hs, setFlags, coreK]
          all_goals simp [stepK, row_scan_handler, setFlags, coreK]
  | buttonScanFire colReading =>
      cases bsa with
      | false => simp [stepK, setFlags, coreK]
      | true =>
          cases st <;> (cases colReading <;>
            simp [stepK, button_scan_handler, setFlags, coreK])
  | longPressFire =>
      cases lpa with
      | false => simp [stepK, setFlags, coreK]
      | true => cases st <;> simp [stepK, long_press_handler, setFlags, coreK]

/-- Edge interrupts received while the machine is debouncing a press are
complete no-ops: they neither change any state nor re-arm any timer. -/
theorem edge_noop_bouncing (k : KeypadState) (a : KAction)
    (hst : k.state = ButtonState.PRESS_BOUNCING) (ha : isEdge a = true) :
    stepK k a = (k, []) := by
  cases a with
  | fall c => simp [stepK, fall_handler, hst]
  | rise c => simp [stepK, rise_handler, hst]
  | rowScanFire reads => simp [isEdge] at ha
  | buttonScanFire colReading => simp [isEdge] at ha
  | longPressFire => simp [isEdge] at ha

/-- Running any list of edge interrupts while debouncing a press leaves the
state untouched and classifies no event. -/
theorem run_noop_bouncing (noise : List KAction) :
    ∀ k : KeypadState, k.state = ButtonState.PRESS_BOUNCING →
      (∀ a ∈ noise, isEdge a = true) → runK k noise = (k, []) := by
  induction noise with
  | nil => intro k _ _; rfl
  | cons a as ih =>
      intro k hst ha
      have h1 : stepK k a = (k, []) :=
        edge_noop_bouncing k a hst (ha a (List.mem_cons_self a as))
      have h2 : runK k as = (k, []) :=
        ih k hst (fun b hb => ha b (List.mem_cons_of_mem a hb))
      simp [runK, h1, h2]

/-- Every classified event carries the pending position of the post-state. -/
theorem events_carry (k : KeypadState) (a : KAction) (e : KEvent)
    (he : e ∈ (stepK k a).2) :
    e.row = (stepK k a).1.pressedRow ∧ e.col = (stepK k a).1.pressedCol := by
  rcases stepK_events k a with ⟨h2, _⟩ | ⟨e0, h2, hr, hc, _⟩
  · rw [h2] at he; cases he
  · rw [h2] at he
    have := List.mem_singleton.mp he
    subst this
    exact ⟨hr, hc⟩

/-- If the row sweep reports row i, then row i is the first row whose drive
makes the column read active: row i reads active and every earlier row reads
inactive. -/
theorem scanRows_spec (reads : List Bool) (i : Nat) (h : scanRows reads = some i) :
    i < KEYPAD_NUM_ROWS ∧ reads.getD i false = true
      ∧ ∀ j, j < i → reads.getD j false = false := by
  rw [scanRows, List.find?_eq_some_iff_getElem] at h
  obtain ⟨hp, j, hj, hval, hbefore⟩ := h
  rw [List.getElem_range] at hval
  subst hval
  refine ⟨by simpa using hj, hp, ?_⟩
  intro m hm
  have hm2 := hbefore m hm
  rw [List.getElem_range] at hm2
  simpa using hm2

/-- Pushing a list of presses that fits below capacity simply appends it. -/
theorem pushAllPress_le (xs : List button_coord) :
    ∀ b : KeypadBlockingState,
      b.pressBuf.length + xs.length ≤ KEYPAD_BUFFER_LEN →
      (pushAllPress b xs).pressBuf = b.pressBuf ++ xs := by
  induction xs with
  | nil => intro b _; simp [pushAllPress]
  | cons x xs ih =>
      intro b hb
      obtain ⟨xr, xc⟩ := x
      have hlt : b.pressBuf.length < KEYPAD_BUFFER_LEN := by
        simp only [List.length_cons] at hb; omega
      have hstep : pushAllPress b (⟨xr, xc⟩ :: xs)
          = pushAllPress (push_press b xr xc) xs := rfl
      have hbuf : (push_press b xr xc).pressBuf = b.pressBuf ++ [⟨xr, xc⟩] := by
        simp [push_press, cbuf_push, hlt]
      rw [hstep, ih (push_press b xr xc)
        (by simp only [hbuf, List.length_append, List.length_cons, List.length_nil] at hb ⊢; omega)]
      rw [hbuf, List.append_assoc]
      rfl

/-- Draining as many presses as the buffer holds returns its contents in
order, oldest first. -/
theorem drainPress_all (l : List button_coord) :
    ∀ b : KeypadBlockingState, b.pressBuf = l → drainPress b l.length = l := by
  induction l with
  | nil => intro b _; simp [drainPress]
  | cons x rest ih =>
      intro b hb
      have hpk : peek_press b = some x := by simp [peek_press, cbuf_peek, hb]
      have hpp : (pop_press b).1 = { b with pressBuf := rest } := by
        simp [pop_press, cbuf_pop, hb]
      have hrec := ih { b with pressBuf := rest } rfl
      simp [drainPress, hpk, hpp, hrec]

/-- Pushing one press past capacity drops exactly the oldest entry. -/
theorem pushAllPress_over (xs : List button_coord)
    (h : xs.length = KEYPAD_BUFFER_LEN + 1) :
    (pushAllPress emptyBlocking xs).pressBuf = xs.drop 1 := by
  induction xs using List.reverseRecOn with
  | nil => simp [KEYPAD_BUFFER_LEN] at h
  | append_singleton ys z _ =>
      have hys : ys.length = KEYPAD_BUFFER_LEN := by
        simp only [List.length_append, List.length_singleton] at h; omega
      obtain ⟨zr, zc⟩ := z
      have hstep : pushAllPress emptyBlocking (ys ++ [⟨zr, zc⟩])
          = push_press (pushAllPress emptyBlocking ys) zr zc := by
        simp [pushAllPress, List.foldl_append]
      have hfull : (pushAllPress emptyBlocking ys).pressBuf = ys :=
        pushAllPress_le ys emptyBlocking (by simp [emptyBlocking, hys])
      rw [hstep]
      have hnotlt : ¬ ys.length < KEYPAD_BUFFER_LEN := by omega
      rw [show (push_press (pushAllPress emptyBlocking ys) zr zc).pressBuf
            = ys.drop 1 ++ [⟨zr, zc⟩] by
        simp [push_press, cbuf_push, hfull, hnotlt]]
      rw [List.drop_append_of_le_length (by rw [hys]; decide)]

/-- Concatenating stimulus lists composes runs and concatenates the
classified streams. -/
theorem runK_append (xs ys : List KAction) :
    ∀ k : KeypadState,
      runK k (xs ++ ys)
        = ((runK (runK k xs).1 ys).1, (runK k xs).2 ++ (runK (runK k xs).1 ys).2) := by
  induction xs with
  | nil => intro k; simp [runK]
  | cons a xs ih => intro k; simp [runK, ih, List.append_assoc]

/-- C1: for every sequence of edge notifications and timer expirations
applied from the initial Released state, the state machine never classifies
two Pressed events without an intervening Released event between them,
whatever callbacks are registered. -/
theorem C1_no_double_pressed (p r l : Bool) (as : List KAction) :
    noDoublePressed (runK (initK p r l) as).2 false = true := by
  have h := runK_noDoublePressed as (initK p r l)
  simpa [initK, pressOpen] using h

/-- C2 counterexample: after a press latched at row 1, column 2 is released
and the release-confirm timer confirms the release, the machine is back in
Released but the pending position still holds row 1, column 2 — the
transition to Released does not clear it, refuting the claim that the
pending position is cleared on every return to Released. -/
theorem C2_counterexample :
    ((runK (initK true true true)
        [KAction.fall 2, KAction.rowScanFire [false, true, false, false],
         KAction.rise 2]).1.state = ButtonState.RELEASE_BOUNCING)
    ∧ ((runK (initK true true true)
        [KAction.fall 2, KAction.rowScanFire [false, true, false, false],
         KAction.rise 2]).1.pressedRow = 1)
    ∧ ((runK (initK true true true)
        [KAction.fall 2, KAction.rowScanFire [false, true, false, false],
         KAction.rise 2]).1.pressedCol = 2)
    ∧ ((runK (initK true true true)
        [KAction.fall 2, KAction.rowScanFire [false, true, false, false],
         KAction.rise 2, KAction.buttonScanFire true]).1.state
      = ButtonState.RELEASED)
    ∧ ((runK (initK true true true)
        [KAction.fall 2, KAction.rowScanFire [false, true, false, false],
         KAction.rise 2, KAction.buttonScanFire true]).1.pressedRow = 1)
    ∧ ((runK (initK true true true)
        [KAction.fall 2, KAction.rowScanFire [false, true, false, false],
         KAction.rise 2, KAction.buttonScanFire true]).1.pressedCol = 2) := by
  decide

/-- C2 amended: the pending position is written only when the row sweep
confirms a press (the transition from PressBouncing to Pressed); every step
that ends in Released — in particular the release-confirm transition — leaves
the pending position unchanged: it is left holding the last latched pair,
not cleared. -/
theorem C2_pending_not_cleared :
    (∀ (k : KeypadState) (a : KAction),
        k.state ≠ ButtonState.PRESS_BOUNCING →
        (stepK k a).1.pressedRow = k.pressedRow
        ∧ (stepK k a).1.pressedCol = k.pressedCol)
    ∧ (∀ (k : KeypadState) (a : KAction),
        (stepK k a).1.state = ButtonState.RELEASED →
        (stepK k a).1.pressedRow = k.pressedRow
        ∧ (stepK k a).1.pressedCol = k.pressedCol) := by
  constructor
  · intro k a hk
    rcases pending_change k a with h | ⟨h1, _⟩
    · exact h
    · exact absurd h1 hk
  · intro k a hk
    rcases pending_change k a with h | ⟨_, h2⟩
    · exact h
    · rw [hk] at h2
      simp at h2

/-- C2 amended, witness: the release-confirm step from a concrete
ReleaseBouncing state leaves the pending position untouched. -/
theorem C2_pending_not_cleared_witness :
    (stepK sampleReleaseBouncing (KAction.buttonScanFire true)).1.pressedRow
      = sampleReleaseBouncing.pressedRow
    ∧ (stepK sampleReleaseBouncing (KAction.buttonScanFire true)).1.pressedCol
      = sampleReleaseBouncing.pressedCol :=
  C2_pending_not_cleared.1 sampleReleaseBouncing (KAction.buttonScanFire true)
    (by decide)

/-- C3 counterexample: with a press latched on column 0 and the machine in
Pressed, a rising edge on column 1 — a column other than the tracked one —
moves the machine to ReleaseBouncing, refuting the claim that such edges
cause no state transition. -/
theorem C3_counterexample :
    ((runK (initK true true true)
        [KAction.fall 0, KAction.rowScanFire [true, true, true, true]]).1.state
      = ButtonState.PRESSED)
    ∧ ((runK (initK true true true)
        [KAction.fall 0, KAction.rowScanFire [true, true, true, true]]).1.pressedCol
      = 0)
    ∧ ((stepK (runK (initK true true true)
        [KAction.fall 0, KAction.rowScanFire [true, true, true, true]]).1
        (KAction.rise 1)).1.state = ButtonState.RELEASE_BOUNCING) := by
  decide

/-- C3 amended: no edge ever directly classifies an event; a falling edge in
any state other than Released is dropped entirely, whatever its column; a
rising edge in any state other than Pressed and LongPressed is dropped
entirely; but a rising edge in Pressed or LongPressed starts the
release-bounce transition regardless of which column it arrives on, because
the rise handler does not inspect the column; such a spurious transition is
rolled back to Pressed, with no event, by the release-confirm scan while the
tracked column still reads held. -/
theorem C3_edge_handling :
    (∀ (k : KeypadState) (c : Nat),
        (k.state ≠ ButtonState.RELEASED → stepK k (KAction.fall c) = (k, []))
        ∧ (k.state ≠ ButtonState.PRESSED → k.state ≠ ButtonState.LONG_PRESSED →
            stepK k (KAction.rise c) = (k, []))
        ∧ (stepK k (KAction.fall c)).2 = []
        ∧ (stepK k (KAction.rise c)).2 = []
        ∧ ((k.state = ButtonState.PRESSED ∨ k.state = ButtonState.LONG_PRESSED) →
            (stepK k (KAction.rise c)).1.state = ButtonState.RELEASE_BOUNCING))
    ∧ (∀ k : KeypadState,
        k.state = ButtonState.RELEASE_BOUNCING → k.buttonScanArmed = true →
        (stepK k (KAction.buttonScanFire false)).1.state = ButtonState.PRESSED
        ∧ (stepK k (KAction.buttonScanFire false)).2 = []) := by
  constructor
  · intro k c
    obtain ⟨st, pr, pc, rsa, bsa, lpa, pcb, rcb, lcb, q, th⟩ := k
    cases st <;> simp [stepK, fall_handler, rise_handler]
  · intro k h1 h2
    obtain ⟨st, pr, pc, rsa, bsa, lpa, pcb, rcb, lcb, q, th⟩ := k
    cases st <;> simp_all [stepK, button_scan_handler]

/-- C3 amended, witness: from a concrete Pressed state tracking column 2, a
falling edge on column 3 is a no-op, while a rising edge on column 3 does
transition to ReleaseBouncing. -/
theorem C3_edge_handling_witness :
    stepK sampleHeld (KAction.fall 3) = (sampleHeld, [])
    ∧ (stepK sampleHeld (KAction.rise 3)).1.state = ButtonState.RELEASE_BOUNCING :=
  ⟨(C3_edge_handling.1 sampleHeld 3).1 (by decide),
   (C3_edge_handling.1 sampleHeld 3).2.2.2.2 (Or.inl (by decide))⟩

/-- C4: when the row sweep confirms a press, the machine latches as pending
position the first row whose drive makes the triggering column read active,
together with the column the row-confirm timer was armed for, and classifies
the Pressed event at exactly that pair; moreover every classified event of
any step carries the pending position of the post-state, and no step outside
press confirmation ever rewrites the pending position — so the LongPressed
and Released events of the gesture carry the latched pair as well. -/
theorem C4_press_latch :
    (∀ (k : KeypadState) (reads : List Bool) (c i : Nat),
        k.state = ButtonState.PRESS_BOUNCING →
        k.rowScanArmed = some c →
        scanRows reads = some i →
        (stepK k (KAction.rowScanFire reads)).1.state = ButtonState.PRESSED
        ∧ (stepK k (KAction.rowScanFire reads)).1.pressedRow = i
        ∧ (stepK k (KAction.rowScanFire reads)).1.pressedCol = c
        ∧ reads.getD i false = true
        ∧ (∀ j, j < i → reads.getD j false = false)
        ∧ (stepK k (KAction.rowScanFire reads)).2 = [⟨EventKind.Pressed, i, c⟩])
    ∧ (∀ (k : KeypadState) (a : KAction) (e : KEvent),
        e ∈ (stepK k a).2 →
        e.row = (stepK k a).1.pressedRow ∧ e.col = (stepK k a).1.pressedCol)
    ∧ (∀ (k : KeypadState) (a : KAction),
        k.state ≠ ButtonState.PRESS_BOUNCING →
        (stepK k a).1.pressedRow = k.pressedRow
        ∧ (stepK k a).1.pressedCol = k.pressedCol) := by
  refine ⟨?_, events_carry, ?_⟩
  · intro k reads c i h1 h2 h3
    obtain ⟨hlt, hp, hfirst⟩ := scanRows_spec reads i h3
    obtain ⟨st, pr, pc, rsa, bsa, lpa, pcb, rcb, lcb, q, th⟩ := k
    cases st <;> cases rsa <;> simp_all [stepK, row_scan_handler]
  · intro k a hk
    rcases pending_change k a with h | ⟨h1, _⟩
    · exact h
    · exact absurd h1 hk

/-- C4 witness: a concrete sweep latching row 1, column 2 while rows 0 and 1
both drive, showing the first active row wins and the event carries the
latched pair. -/
theorem C4_press_latch_witness :
    (stepK sampleBouncing (KAction.rowScanFire [false, true, true, false])).1.state
      = ButtonState.PRESSED
    ∧ (stepK sampleBouncing (KAction.rowScanFire [false, true, true, false])).1.pressedRow
      = 1
    ∧ (stepK sampleBouncing (KAction.rowScanFire [false, true, true, false])).1.pressedCol
      = 2
    ∧ (stepK sampleBouncing (KAction.rowScanFire [false, true, true, false])).2
      = [⟨EventKind.Pressed, 1, 2⟩] := by
  have h := C4_press_latch.1 sampleBouncing [false, true, true, false] 2 1
    (by decide) (by decide) (by decide)
  exact ⟨h.1, h.2.1, h.2.2.1, h.2.2.2.2.2⟩

/-- C5: a LongPressed event can only be classified strictly between a Pressed
event and the Released event that closes it — so once a press is released and
confirmed, no LongPressed ever fires for it; mechanically, the
release-confirm transition emits the Released event and disarms the
long-press timer, a disarmed long-press timer expiration is a complete
no-op, and the long-press handler classifies nothing once the state has left
Pressed. -/
theorem C5_release_cancels_longpress :
    (∀ (p r l : Bool) (as : List KAction),
        longAfterPress (runK (initK p r l) as).2 false = true)
    ∧ (∀ k : KeypadState,
        k.state = ButtonState.RELEASE_BOUNCING → k.buttonScanArmed = true →
        (stepK k (KAction.buttonScanFire true)).1.state = ButtonState.RELEASED
        ∧ (stepK k (KAction.buttonScanFire true)).1.longPressArmed = false
        ∧ (stepK k (KAction.buttonScanFire true)).2
            = [⟨EventKind.Released, k.pressedRow, k.pressedCol⟩])
    ∧ (∀ k : KeypadState, k.longPressArmed = false →
        stepK k KAction.longPressFire = (k, []))
    ∧ (∀ k : KeypadState, k.state ≠ ButtonState.PRESSED →
        (stepK k KAction.longPressFire).2 = []
        ∧ (stepK k KAction.longPressFire).1.state = k.state) := by
  refine ⟨?_, ?_, ?_, ?_⟩
  · intro p r l as
    have h := runK_longAfterPress as (initK p r l)
    simpa [initK, pressOpen] using h
  · intro k h1 h2
    obtain ⟨st, pr, pc, rsa, bsa, lpa, pcb, rcb, lcb, q, th⟩ := k
    cases st <;> cases lpa <;> simp_all [stepK, button_scan_handler]
  · intro k h
    obtain ⟨st, pr, pc, rsa, bsa, lpa, pcb, rcb, lcb, q, th⟩ := k
    simp_all [stepK]
  · intro k h
    obtain ⟨st, pr, pc, rsa, bsa, lpa, pcb, rcb, lcb, q, th⟩ := k
    cases st <;> cases lpa <;> simp_all [stepK, long_press_handler]

/-- C5 witness: confirming the release of the latched press from a concrete
ReleaseBouncing state emits the Released event at the latched pair and
disarms the long-press timer, after which a stray long-press expiration does
nothing. -/
theorem C5_release_cancels_longpress_witness :
    ((stepK sampleReleaseBouncing (KAction.buttonScanFire true)).1.longPressArmed
      = false)
    ∧ ((stepK sampleReleaseBouncing (KAction.buttonScanFire true)).2
      = [⟨EventKind.Released, 1, 2⟩])
    ∧ stepK (initK true true true) KAction.longPressFire
        = (initK true true true, []) :=
  ⟨(C5_release_cancels_longpress.2.1 sampleReleaseBouncing (by decide) (by decide)).2.1,
   (C5_release_cancels_longpress.2.1 sampleReleaseBouncing (by decide) (by decide)).2.2,
   C5_release_cancels_longpress.2.2.1 (initK true true true) (by decide)⟩

/-- C6: from a confirmed press with the long-press timer armed, the timer
expiration classifies exactly one LongPressed event, at the latched pending
position, after which the release (rising edge followed by a confirming
release scan) classifies exactly one Released event at the same position;
a second long-press expiration is a complete no-op, as is any further
falling edge while the button is held. -/
theorem C6_longpress_exactly_once (k : KeypadState) (c : Nat)
    (h1 : k.state = ButtonState.PRESSED) (h2 : k.longPressArmed = true) :
    (runK k [KAction.longPressFire, KAction.rise c, KAction.buttonScanFire true]).2
      = [⟨EventKind.LongPressed, k.pressedRow, k.pressedCol⟩,
         ⟨EventKind.Released, k.pressedRow, k.pressedCol⟩]
    ∧ (runK k [KAction.longPressFire, KAction.rise c,
        KAction.buttonScanFire true]).1.state = ButtonState.RELEASED
    ∧ stepK (stepK k KAction.longPressFire).1 KAction.longPressFire
        = ((stepK k KAction.longPressFire).1, [])
    ∧ (∀ c', stepK (stepK k KAction.longPressFire).1 (KAction.fall c')
        = ((stepK k KAction.longPressFire).1, [])) := by
  obtain ⟨st, pr, pc, rsa, bsa, lpa, pcb, rcb, lcb, q, th⟩ := k
  simp_all [runK, stepK, long_press_handler, rise_handler, button_scan_handler,
    fall_handler]

/-- C6 witness: the held-press scenario evaluated from a concrete Pressed
state latched at row 1, column 2. -/
theorem C6_longpress_exactly_once_witness :
    (runK sampleHeld
        [KAction.longPressFire, KAction.rise 2, KAction.buttonScanFire true]).2
      = [⟨EventKind.LongPressed, 1, 2⟩, ⟨EventKind.Released, 1, 2⟩]
    ∧ (runK sampleHeld
        [KAction.longPressFire, KAction.rise 2, KAction.buttonScanFire true]).1.state
      = ButtonState.RELEASED :=
  ⟨(C6_longpress_exactly_once sampleHeld 2 (by decide) (by decide)).1,
   (C6_longpress_exactly_once sampleHeld 2 (by decide) (by decide)).2.1⟩

/-- C7: initialize on an already-initialized instance returns false and
changes nothing; finalize on a non-initialized instance returns false and
changes nothing; and from a non-initialized state, initialize then finalize
performed twice in direct succession returns true all four times (assuming
thread allocation and start succeed). -/
theorem C7_lifecycle (k : KeypadState) (a s : Bool) :
    (is_initialized k = true → initialize_fn a s k = (k, false))
    ∧ (is_initialized k = false → finalize_fn k = (k, false))
    ∧ (is_initialized k = false →
        (initialize_fn true true k).2 = true
        ∧ (finalize_fn (initialize_fn true true k).1).2 = true
        ∧ (initialize_fn true true
            (finalize_fn (initialize_fn true true k).1).1).2 = true
        ∧ (finalize_fn (initialize_fn true true
            (finalize_fn (initialize_fn true true k).1).1).1).2 = true) := by
  obtain ⟨st, pr, pc, rsa, bsa, lpa, pcb, rcb, lcb, q, th⟩ := k
  cases th <;> simp [is_initialized, initialize_fn, finalize_fn]

/-- C7 witness: the double initialize-finalize cycle evaluated from the
freshly constructed state, plus the failing finalize before any
initialize. -/
theorem C7_lifecycle_witness :
    finalize_fn (initK true true true) = (initK true true true, false)
    ∧ (initialize_fn true true (initK true true true)).2 = true
    ∧ (finalize_fn (initialize_fn true true (initK true true true)).1).2 = true
    ∧ (initialize_fn true true
        (finalize_fn (initialize_fn true true (initK true true true)).1).1).2 = true
    ∧ (finalize_fn (initialize_fn true true
        (finalize_fn (initialize_fn true true (initK true true true)).1).1).1).2
      = true :=
  ⟨(C7_lifecycle (initK true true true) true true).2.1 (by decide),
   ((C7_lifecycle (initK true true true) true true).2.2 (by decide)).1,
   ((C7_lifecycle (initK true true true) true true).2.2 (by decide)).2.1,
   ((C7_lifecycle (initK true true true) true true).2.2 (by decide)).2.2.1,
   ((C7_lifecycle (initK true true true) true true).2.2 (by decide)).2.2.2⟩

/-- C8: pushing K entries, K at most the capacity 16, into an empty press
buffer and then draining K times yields the same entries in the same order;
pushing 17 entries then draining yields 16 entries with the first-pushed
entry missing, the oldest having been overwritten. -/
theorem C8_buffer_roundtrip :
    (∀ xs : List button_coord, xs.length ≤ KEYPAD_BUFFER_LEN →
        (pushAllPress emptyBlocking xs).pressBuf = xs
        ∧ drainPress (pushAllPress emptyBlocking xs) xs.length = xs)
    ∧ (∀ xs : List button_coord, xs.length = KEYPAD_BUFFER_LEN + 1 →
        press_available (pushAllPress emptyBlocking xs) = KEYPAD_BUFFER_LEN
        ∧ drainPress (pushAllPress emptyBlocking xs) KEYPAD_BUFFER_LEN
            = xs.drop 1) := by
  constructor
  · intro xs hlen
    have hbuf : (pushAllPress emptyBlocking xs).pressBuf = xs :=
      pushAllPress_le xs emptyBlocking (by simpa [emptyBlocking] using hlen)
    exact ⟨hbuf, drainPress_all xs _ hbuf⟩
  · intro xs hlen
    have hbuf := pushAllPress_over xs hlen
    have hdlen : (xs.drop 1).length = KEYPAD_BUFFER_LEN := by
      rw [List.length_drop, hlen]
      omega
    refine ⟨?_, ?_⟩
    · show (pushAllPress emptyBlocking xs).pressBuf.length = KEYPAD_BUFFER_LEN
      rw [hbuf]
      exact hdlen
    · have h := drainPress_all (xs.drop 1) _ hbuf
      rwa [hdlen] at h

/-- C8 witness: a two-entry round trip and a seventeen-entry overflow on
concrete coordinate lists. -/
theorem C8_buffer_roundtrip_witness :
    drainPress (pushAllPress emptyBlocking [⟨0, 1⟩, ⟨2, 3⟩]) 2 = [⟨0, 1⟩, ⟨2, 3⟩]
    ∧ drainPress
        (pushAllPress emptyBlocking (⟨9, 9⟩ :: List.replicate 16 ⟨0, 0⟩))
        KEYPAD_BUFFER_LEN
      = (⟨9, 9⟩ :: List.replicate 16 (⟨0, 0⟩ : button_coord)).drop 1 :=
  ⟨(C8_buffer_roundtrip.1 [⟨0, 1⟩, ⟨2, 3⟩] (by decide)).2,
   (C8_buffer_roundtrip.2 (⟨9, 9⟩ :: List.replicate 16 ⟨0, 0⟩) (by decide)).2⟩

/-- C9: from the initial Released state, a falling edge on column c followed
by any number of further edge interrupts (bounce noise, on any columns)
arriving before the row-confirm timer fires, followed by the row-confirm
expiration with some row reading active, classifies exactly one Pressed
event, at the swept row and the original column c, leaving the machine in
Pressed. -/
theorem C9_bounce_absorption (p r l : Bool) (c : Nat) (noise : List KAction)
    (hn : ∀ a ∈ noise, isEdge a = true) (reads : List Bool) (i : Nat)
    (hs : scanRows reads = some i) :
    (runK (initK p r l)
        (KAction.fall c :: (noise ++ [KAction.rowScanFire reads]))).2
      = [⟨EventKind.Pressed, i, c⟩]
    ∧ (runK (initK p r l)
        (KAction.fall c :: (noise ++ [KAction.rowScanFire reads]))).1.state
      = ButtonState.PRESSED
    ∧ (runK (initK p r l)
        (KAction.fall c :: (noise ++ [KAction.rowScanFire reads]))).1.pressedRow
      = i
    ∧ (runK (initK p r l)
        (KAction.fall c :: (noise ++ [KAction.rowScanFire reads]))).1.pressedCol
      = c := by
  have hstep : stepK (initK p r l) (KAction.fall c) = (bouncingFrom p r l c, []) := by
    simp [stepK, fall_handler, initK, bouncingFrom]
  have hno : runK (bouncingFrom p r l c) noise = (bouncingFrom p r l c, []) :=
    run_noop_bouncing noise _ rfl hn
  simp only [runK]
  rw [hstep]
  dsimp only
  rw [runK_append noise [KAction.rowScanFire reads] (bouncingFrom p r l c), hno]
  dsimp only
  simp [runK, stepK, bouncingFrom, initK, row_scan_handler, hs]

/-- C9 witness: three bounce pairs on column 2 faster than the debounce
window, then a settled scan reading row 1 active, produce the single Pressed
event at (1, 2). -/
theorem C9_bounce_absorption_witness :
    (runK (initK true true true)
        (KAction.fall 2 ::
          ([KAction.rise 2, KAction.fall 2, KAction.rise 2, KAction.fall 2,
            KAction.rise 2, KAction.fall 2]
            ++ [KAction.rowScanFire [false, true, false, false]]))).2
      = [⟨EventKind.Pressed, 1, 2⟩]
    ∧ (runK (initK true true true)
        (KAction.fall 2 ::
          ([KAction.rise 2, KAction.fall 2, KAction.rise 2, KAction.fall 2,
            KAction.rise 2, KAction.fall 2]
            ++ [KAction.rowScanFire [false, true, false, false]]))).1.state
      = ButtonState.PRESSED :=
  ⟨(C9_bounce_absorption true true true 2
      [KAction.rise 2, KAction.fall 2, KAction.rise 2, KAction.fall 2,
       KAction.rise 2, KAction.fall 2]
      (by decide) [false, true, false, false] 1 (by decide)).1,
   (C9_bounce_absorption true true true 2
      [KAction.rise 2, KAction.fall 2, KAction.rise 2, KAction.fall 2,
       KAction.rise 2, KAction.fall 2]
      (by decide) [false, true, false, false] 1 (by decide)).2.1⟩

/-- C10: each step appends to the dispatch queue exactly those classified
events whose callback enabled flag was set at classification time — an event
whose listener is not registered is silently dropped — while the
gesture-tracking core of the transition and the classification itself are
entirely independent of which listeners are registered; removing a listener
clears exactly its enabled flag. -/
theorem C10_enqueue_iff_registered :
    (∀ (k : KeypadState) (a : KAction),
        (stepK k a).1.queue
          = k.queue ++ (stepK k a).2.filter (fun e => cbEnabled k e.kind))
    ∧ (∀ (k : KeypadState) (a : KAction) (p r l : Bool),
        coreK (stepK (setFlags k p r l) a).1 = coreK (stepK k a).1
        ∧ (stepK (setFlags k p r l) a).2 = (stepK k a).2)
    ∧ (∀ k : KeypadState,
        cbEnabled (remove_onpress k) EventKind.Pressed = false
        ∧ cbEnabled (remove_onrelease k) EventKind.Released = false
        ∧ cbEnabled (remove_onlongpress k) EventKind.LongPressed = false) :=
  ⟨queue_append,
   fun k a p r l => flags_independent k a p r l,
   fun _ => ⟨rfl, rfl, rfl⟩⟩
